import Mathlib

/-! Shallow embedding of the element-interaction layer of a Selenium page-object
test harness: the wait engine (find_element and friends), the interaction layer
(click_element, input_text, get_text, hover_over_element, scroll_to_element,
get_element_attribute), the staleness retry wrapper (retry_on_stale), and the
Login/Dashboard page objects built on them.

Time is modelled in discrete poll ticks (one tick = one WebDriverWait poll,
half a second apart).  The browser session is modelled as a `Scenario`: what
each locator resolves to at each tick, and how each driver primitive behaves on
each element handle.  Operations return their Python result (`Except PyError`)
together with the trace of driver events and log records they emit. -/

/-- Python-level exceptions the embedded code raises or catches.  A Selenium
`TimeoutException` raised by `WebDriverWait.until` carries no locator and no
predicate information (the wait is constructed without a message), so it is a
bare constructor here. -/
inductive PyError where
  | timeoutException
  | staleElementReference
  | noSuchElement
  | otherError (msg : String)
  deriving DecidableEq

/-- Locator strategies (the `By` constants used by the page objects). -/
inductive By where
  | id
  | xpath
  | linkText
  | name
  | tagName
  | className
  | cssSelector
  deriving DecidableEq

/-- A locator is an immutable pair of strategy and selector string. -/
abbrev Locator := By × String

/-- The wait predicate kinds the base page exposes. -/
inductive PredicateKind where
  | presence
  | visibility
  | clickability
  | presenceAll
  | invisibility
  deriving DecidableEq

/-- Driver events and log records emitted by the interaction layer.
`resolved` marks a handle returned by the wait engine for a locator;
`logTimeout` is the `logger.error` record written when a wait times out (it is
the place the locator and predicate kind are recorded); the remaining events
are driver primitives acting on an already-resolved handle. -/
inductive Ev (H : Type) where
  | resolved (kind : PredicateKind) (loc : Locator) (el : H)
  | logTimeout (kind : PredicateKind) (loc : Locator)
  | clicked (el : H)
  | jsClicked (el : H)
  | cleared (el : H)
  | sentKeys (el : H) (text : String)
  | readText (el : H)
  | movedTo (el : H)
  | scrolledTo (el : H)
  | gotAttribute (el : H) (attrName : String)
  deriving DecidableEq

/-- State of the document at one poll tick: which handles each locator
resolves to (in DOM order), and which handles are displayed / enabled. -/
structure PageTick (H : Type) where
  elems : Locator → List H
  visible : H → Bool
  enabled : H → Bool

/-- A browser scenario: the document at every poll tick, plus the behaviour of
the driver primitives on each handle (text content, attributes, child lookup,
and the outcome of click / JS click / clear / send_keys). -/
structure Scenario (H : Type) where
  dom : Nat → PageTick H
  text : H → String
  attr : H → String → Option String
  child : H → Locator → Option H
  clickRes : H → Except PyError Unit
  jsClickRes : H → Except PyError Unit
  clearRes : H → Except PyError Unit
  sendKeysRes : H → Except PyError Unit

/-- The configuration values that can differ per process: DEFAULT_TIMEOUT is
`int(os.getenv(..., 10))`, modelled by the parsed environment value. -/
structure Config where
  DEFAULT_TIMEOUT : Int

/-- Config as built from the environment: DEFAULT_TIMEOUT defaults to 10. -/
def Config.ofEnv (defaultTimeoutEnv : Option Int) : Config :=
  ⟨defaultTimeoutEnv.getD 10⟩

/-- Config constant POLL_FREQUENCY (0.5 s), in milliseconds. -/
def Config.POLL_FREQUENCY_MS : Nat := 500

/-- Config constant: timeout for element presence. -/
def Config.ELEMENT_PRESENCE_TIMEOUT : Int := 10

/-- Config constant: timeout for element visibility. -/
def Config.ELEMENT_VISIBILITY_TIMEOUT : Int := 10

/-- Config constant: timeout for element to be clickable. -/
def Config.ELEMENT_CLICKABLE_TIMEOUT : Int := 10

/-- The poll interval WebDriverWait actually uses: the Selenium library
default (0.5 s, in milliseconds), since BasePage constructs every
`WebDriverWait(driver, timeout)` without a poll_frequency argument. -/
def seleniumDefaultPollMs : Nat := 500

/-- Python `timeout or default` on an optional int: `None` and `0` are falsy,
any other value (including a negative one) is used as given. -/
def pyOr (timeout : Option Int) (default : Int) : Int :=
  match timeout with
  | none => default
  | some t => if t = 0 then default else t

/-- Number of predicate checks a WebDriverWait with the given timeout (whole
seconds) performs: one check immediately, then one more after each poll sleep
while the elapsed time has not exceeded the timeout. -/
def pollsOf (timeout : Int) : Nat :=
  if timeout ≤ 0 then 1 else 1000 * timeout.toNat / seleniumDefaultPollMs + 1

/-- WebDriverWait.until: evaluate the check at consecutive ticks starting at
`tick`; return the first successful value, or raise `TimeoutException` once
the allotted number of checks is used up. -/
def waitUntilAux (check : Nat → Option α) : Nat → Nat → Except PyError α
  | _, 0 => .error .timeoutException
  | tick, n + 1 =>
    match check tick with
    | some v => .ok v
    | none => waitUntilAux check (tick + 1) n

/-- WebDriverWait.until starting from tick 0. -/
def waitUntil (check : Nat → Option α) (polls : Nat) : Except PyError α :=
  waitUntilAux check 0 polls

/-- EC.presence_of_element_located: the first element the locator resolves to,
if any. -/
def presenceCheck (pt : PageTick H) (loc : Locator) : Option H :=
  (pt.elems loc).head?

/-- EC.visibility_of_element_located: the first element, provided it is
displayed. -/
def visibilityCheck (pt : PageTick H) (loc : Locator) : Option H :=
  match (pt.elems loc).head? with
  | none => none
  | some el => if pt.visible el then some el else none

/-- EC.element_to_be_clickable: visible and enabled. -/
def clickableCheck (pt : PageTick H) (loc : Locator) : Option H :=
  match visibilityCheck pt loc with
  | none => none
  | some el => if pt.enabled el then some el else none

/-- EC.presence_of_all_elements_located: the full element list, which counts
as success only when it is non-empty (an empty list is falsy in Python). -/
def allPresentCheck (pt : PageTick H) (loc : Locator) : Option (List H) :=
  if (pt.elems loc).isEmpty then none else some (pt.elems loc)

/-- The timeout every wait-bound BasePage operation actually runs with:
`timeout or Config.DEFAULT_TIMEOUT` (the same line in every operation). -/
def BasePage.effectiveTimeout (cfg : Config) (timeout : Option Int) : Int :=
  pyOr timeout cfg.DEFAULT_TIMEOUT

/-- BasePage.find_element: wait for presence with `timeout or DEFAULT_TIMEOUT`;
on timeout, log the locator and re-raise the same exception. -/
def BasePage.find_element (cfg : Config) (scen : Scenario H) (locator : Locator)
    (timeout : Option Int) : Except PyError H × List (Ev H) :=
  match waitUntil (fun tick => presenceCheck (scen.dom tick) locator)
      (pollsOf (BasePage.effectiveTimeout cfg timeout)) with
  | .ok el => (.ok el, [.resolved .presence locator el])
  | .error e =>
    if e = .timeoutException then (.error e, [.logTimeout .presence locator])
    else (.error e, [])

/-- BasePage.find_visible_element: wait for visibility; on timeout, log and
re-raise. -/
def BasePage.find_visible_element (cfg : Config) (scen : Scenario H)
    (locator : Locator) (timeout : Option Int) : Except PyError H × List (Ev H) :=
  match waitUntil (fun tick => visibilityCheck (scen.dom tick) locator)
      (pollsOf (BasePage.effectiveTimeout cfg timeout)) with
  | .ok el => (.ok el, [.resolved .visibility locator el])
  | .error e =>
    if e = .timeoutException then (.error e, [.logTimeout .visibility locator])
    else (.error e, [])

/-- BasePage.find_clickable_element: wait for clickability; on timeout, log and
re-raise. -/
def BasePage.find_clickable_element (cfg : Config) (scen : Scenario H)
    (locator : Locator) (timeout : Option Int) : Except PyError H × List (Ev H) :=
  match waitUntil (fun tick => clickableCheck (scen.dom tick) locator)
      (pollsOf (BasePage.effectiveTimeout cfg timeout)) with
  | .ok el => (.ok el, [.resolved .clickability locator el])
  | .error e =>
    if e = .timeoutException then (.error e, [.logTimeout .clickability locator])
    else (.error e, [])

/-- BasePage.find_elements: wait for a non-empty element list; on timeout, log
and return the empty list instead of raising. -/
def BasePage.find_elements (cfg : Config) (scen : Scenario H) (locator : Locator)
    (timeout : Option Int) : Except PyError (List H) × List (Ev H) :=
  match waitUntil (fun tick => allPresentCheck (scen.dom tick) locator)
      (pollsOf (BasePage.effectiveTimeout cfg timeout)) with
  | .ok els => (.ok els, [])
  | .error e =>
    if e = .timeoutException then (.ok [], [.logTimeout .presenceAll locator])
    else (.error e, [])

/-- BasePage.click_element: resolve via the clickability wait, try the
primitive click, and on any error fall back to a JavaScript click on the same
handle (a bare `except:` in the source). -/
def BasePage.click_element (cfg : Config) (scen : Scenario H) (locator : Locator)
    (timeout : Option Int) : Except PyError Unit × List (Ev H) :=
  match BasePage.find_clickable_element cfg scen locator timeout with
  | (.error e, evs) => (.error e, evs)
  | (.ok el, evs) =>
    match scen.clickRes el with
    | .ok _ => (.ok (), evs ++ [.clicked el])
    | .error _ =>
      match scen.jsClickRes el with
      | .ok _ => (.ok (), evs ++ [.clicked el, .jsClicked el])
      | .error e2 => (.error e2, evs ++ [.clicked el, .jsClicked el])

/-- BasePage.input_text: resolve via the visibility wait, optionally clear,
then send the text. -/
def BasePage.input_text (cfg : Config) (scen : Scenario H) (locator : Locator)
    (text : String) (clear_first : Bool) (timeout : Option Int) :
    Except PyError Unit × List (Ev H) :=
  match BasePage.find_visible_element cfg scen locator timeout with
  | (.error e, evs) => (.error e, evs)
  | (.ok el, evs) =>
    if clear_first then
      match scen.clearRes el with
      | .error e => (.error e, evs ++ [.cleared el])
      | .ok _ =>
        match scen.sendKeysRes el with
        | .error e => (.error e, evs ++ [.cleared el, .sentKeys el text])
        | .ok _ => (.ok (), evs ++ [.cleared el, .sentKeys el text])
    else
      match scen.sendKeysRes el with
      | .error e => (.error e, evs ++ [.sentKeys el text])
      | .ok _ => (.ok (), evs ++ [.sentKeys el text])

/-- BasePage.get_text: resolve via the visibility wait and read the text. -/
def BasePage.get_text (cfg : Config) (scen : Scenario H) (locator : Locator)
    (timeout : Option Int) : Except PyError String × List (Ev H) :=
  match BasePage.find_visible_element cfg scen locator timeout with
  | (.error e, evs) => (.error e, evs)
  | (.ok el, evs) => (.ok (scen.text el), evs ++ [.readText el])

/-- BasePage.hover_over_element: resolve via the visibility wait and move to
the element. -/
def BasePage.hover_over_element (cfg : Config) (scen : Scenario H)
    (locator : Locator) (timeout : Option Int) : Except PyError Unit × List (Ev H) :=
  match BasePage.find_visible_element cfg scen locator timeout with
  | (.error e, evs) => (.error e, evs)
  | (.ok el, evs) => (.ok (), evs ++ [.movedTo el])

/-- BasePage.scroll_to_element: resolve via the presence wait and scroll the
element into view. -/
def BasePage.scroll_to_element (cfg : Config) (scen : Scenario H)
    (locator : Locator) (timeout : Option Int) : Except PyError Unit × List (Ev H) :=
  match BasePage.find_element cfg scen locator timeout with
  | (.error e, evs) => (.error e, evs)
  | (.ok el, evs) => (.ok (), evs ++ [.scrolledTo el])

/-- BasePage.get_element_attribute: resolve via the presence wait and read the
attribute. -/
def BasePage.get_element_attribute (cfg : Config) (scen : Scenario H)
    (locator : Locator) (attrName : String) (timeout : Option Int) :
    Except PyError (Option String) × List (Ev H) :=
  match BasePage.find_element cfg scen locator timeout with
  | (.error e, evs) => (.error e, evs)
  | (.ok el, evs) => (.ok (scen.attr el attrName), evs ++ [.gotAttribute el attrName])

/-- Loop body of BasePage.retry_on_stale.  `attempts` is the loop counter,
`invocations` counts how many times the wrapped function has been invoked (the
function is modelled as depending on its invocation index).  Mirrors:
`while attempts < max_attempts: try: return f() except Stale: attempts += 1;
if attempts == max_attempts: raise` and the implicit `return None` when the
loop is never entered. -/
def BasePage.retryAux (f : Nat → Except PyError α) (max_attempts attempts : Int)
    (invocations : Nat) : Except PyError (Option α) × Nat :=
  if _h : attempts < max_attempts then
    match f invocations with
    | .ok v => (.ok (some v), invocations + 1)
    | .error e =>
      if e = .staleElementReference then
        if attempts + 1 = max_attempts then (.error e, invocations + 1)
        else BasePage.retryAux f max_attempts (attempts + 1) (invocations + 1)
      else (.error e, invocations + 1)
  else (.ok none, invocations)
termination_by (max_attempts - attempts).toNat
decreasing_by omega

/-- BasePage.retry_on_stale: the wrapper entered with a zero loop counter.
Returns the Python result (the function value, `None` when the loop body never
runs, or the propagated error) together with the number of invocations. -/
def BasePage.retry_on_stale (f : Nat → Except PyError α) (max_attempts : Int) :
    Except PyError (Option α) × Nat :=
  BasePage.retryAux f max_attempts 0 0

/-- An ASCII single-quote character, used inside selector strings. -/
def squote : String := String.singleton (Char.ofNat 39)

/-- Python `needle in haystack` on strings (substring test), on the underlying
character lists. -/
def listSublistAt (hay needle : List Char) (i : Nat) : Bool :=
  List.take needle.length (List.drop i hay) = needle

/-- Python substring membership: some offset of the haystack starts with the
needle. -/
def strContains (hay needle : String) : Bool :=
  (List.range (hay.data.length + 1)).any (fun i => listSublistAt hay.data needle.data i)

/-- LoginPage locator: email input. -/
def LoginPage.EMAIL_INPUT : Locator := (By.name, "email")

/-- LoginPage locator: password input. -/
def LoginPage.PASSWORD_INPUT : Locator := (By.name, "password")

/-- LoginPage locator: submit button. -/
def LoginPage.SUBMIT_BUTTON : Locator :=
  (By.cssSelector, "button[data-testid=" ++ squote ++ "submit_btn" ++ squote ++ "]")

/-- LoginPage locator: profile card shown after a successful login. -/
def LoginPage.PROFILE_CARD : Locator :=
  (By.cssSelector, "div[data-testid=" ++ squote ++ "profile_card_id" ++ squote ++ "]")

/-- LoginPage locator: error message container. -/
def LoginPage.ERROR_MESSAGE : Locator := (By.cssSelector, "div.error-message")

/-- The XPath locator `find_email_validation_message` builds from the expected
validation text. -/
def validationLocator (expected : String) : Locator :=
  (By.xpath, "//*[text()=" ++ squote ++ expected ++ squote ++ "]")

/-- Handles the LoginPage constructor resolves and stores as attributes. -/
structure LoginPageState (H : Type) where
  email_input : H
  password_input : H
  submit_btn : H

/-- LoginPage constructor: resolve the email input (visible), the password
input (visible) and the submit button (clickable), failing if any wait fails. -/
def LoginPage.init (cfg : Config) (scen : Scenario H) :
    Except PyError (LoginPageState H) × List (Ev H) :=
  match BasePage.find_visible_element cfg scen LoginPage.EMAIL_INPUT none with
  | (.error e, evs) => (.error e, evs)
  | (.ok e1, evs1) =>
    match BasePage.find_visible_element cfg scen LoginPage.PASSWORD_INPUT none with
    | (.error e, evs) => (.error e, evs1 ++ evs)
    | (.ok e2, evs2) =>
      match BasePage.find_clickable_element cfg scen LoginPage.SUBMIT_BUTTON none with
      | (.error e, evs) => (.error e, evs1 ++ evs2 ++ evs)
      | (.ok e3, evs3) => (.ok ⟨e1, e2, e3⟩, evs1 ++ evs2 ++ evs3)

/-- LoginPage.set_email: type into the email field (re-resolves the locator;
the stored handles are not consulted). -/
def LoginPage.set_email (cfg : Config) (scen : Scenario H) (_p : LoginPageState H)
    (email : String) : Except PyError Unit × List (Ev H) :=
  BasePage.input_text cfg scen LoginPage.EMAIL_INPUT email true none

/-- LoginPage.set_password: type into the password field (re-resolves the
locator; the stored handles are not consulted). -/
def LoginPage.set_password (cfg : Config) (scen : Scenario H) (_p : LoginPageState H)
    (password : String) : Except PyError Unit × List (Ev H) :=
  BasePage.input_text cfg scen LoginPage.PASSWORD_INPUT password true none

/-- LoginPage.find_email_validation_message: wait for an element whose XPath
text() equals the expected message to become visible, then compare its
rendered text with the expectation. -/
def LoginPage.find_email_validation_message (cfg : Config) (scen : Scenario H)
    (expected : String) : Except PyError Bool × List (Ev H) :=
  match BasePage.find_visible_element cfg scen (validationLocator expected) none with
  | (.error e, evs) => (.error e, evs)
  | (.ok el, evs) => (.ok (expected == scen.text el), evs ++ [.readText el])

/-- LoginPage.find_password_validation_message: same lookup as the email
variant. -/
def LoginPage.find_password_validation_message (cfg : Config) (scen : Scenario H)
    (expected : String) : Except PyError Bool × List (Ev H) :=
  match BasePage.find_visible_element cfg scen (validationLocator expected) none with
  | (.error e, evs) => (.error e, evs)
  | (.ok el, evs) => (.ok (expected == scen.text el), evs ++ [.readText el])

/-- LoginPage.check_validation: set email and password, click submit, then
dispatch on whether the expected message mentions Password. -/
def LoginPage.check_validation (cfg : Config) (scen : Scenario H)
    (p : LoginPageState H) (email password expected : String) :
    Except PyError Bool × List (Ev H) :=
  match LoginPage.set_email cfg scen p email with
  | (.error e, evs) => (.error e, evs)
  | (.ok _, evs1) =>
    match LoginPage.set_password cfg scen p password with
    | (.error e, evs) => (.error e, evs1 ++ evs)
    | (.ok _, evs2) =>
      match BasePage.click_element cfg scen LoginPage.SUBMIT_BUTTON none with
      | (.error e, evs) => (.error e, evs1 ++ evs2 ++ evs)
      | (.ok _, evs3) =>
        if strContains expected "Password" then
          match LoginPage.find_password_validation_message cfg scen expected with
          | (r, evs) => (r, evs1 ++ evs2 ++ evs3 ++ evs)
        else
          match LoginPage.find_email_validation_message cfg scen expected with
          | (r, evs) => (r, evs1 ++ evs2 ++ evs3 ++ evs)

/-- DashboardPage locator: profile card. -/
def DashboardPage.PROFILE_CARD : Locator :=
  (By.cssSelector, "div[data-testid=" ++ squote ++ "profile_card_id" ++ squote ++ "]")

/-- DashboardPage locator: use-cases card. -/
def DashboardPage.USE_CASES_CARD : Locator :=
  (By.cssSelector, "div[data-testid=" ++ squote ++ "use_cases_card_id" ++ squote ++ "]")

/-- DashboardPage locator: playground card. -/
def DashboardPage.PLAYGROUND_CARD : Locator :=
  (By.cssSelector, "div[data-testid=" ++ squote ++ "playground_card_id" ++ squote ++ "]")

/-- DashboardPage locator: reports card. -/
def DashboardPage.REPORTS_CARD : Locator :=
  (By.cssSelector, "div[data-testid=" ++ squote ++ "reports_card_id" ++ squote ++ "]")

/-- DashboardPage locator: card title. -/
def DashboardPage.CARD_TITLE : Locator := (By.className, "card-title")

/-- Handles (and the one title string) the DashboardPage constructor resolves
and stores as attributes. -/
structure DashboardPageState (H : Type) where
  profile_card : H
  use_cases_card : H
  playground_card : H
  reports_card : H
  profile_card_title : String

/-- DashboardPage constructor: resolve the four cards (visible) and read the
profile card title from a child element of the profile card. -/
def DashboardPage.init (cfg : Config) (scen : Scenario H) :
    Except PyError (DashboardPageState H) × List (Ev H) :=
  match BasePage.find_visible_element cfg scen DashboardPage.PROFILE_CARD none with
  | (.error e, evs) => (.error e, evs)
  | (.ok c1, evs1) =>
    match BasePage.find_visible_element cfg scen DashboardPage.USE_CASES_CARD none with
    | (.error e, evs) => (.error e, evs1 ++ evs)
    | (.ok c2, evs2) =>
      match BasePage.find_visible_element cfg scen DashboardPage.PLAYGROUND_CARD none with
      | (.error e, evs) => (.error e, evs1 ++ evs2 ++ evs)
      | (.ok c3, evs3) =>
        match BasePage.find_visible_element cfg scen DashboardPage.REPORTS_CARD none with
        | (.error e, evs) => (.error e, evs1 ++ evs2 ++ evs3 ++ evs)
        | (.ok c4, evs4) =>
          match scen.child c1 DashboardPage.CARD_TITLE with
          | none => (.error .noSuchElement, evs1 ++ evs2 ++ evs3 ++ evs4)
          | some t =>
            (.ok ⟨c1, c2, c3, c4, scen.text t⟩,
              evs1 ++ evs2 ++ evs3 ++ evs4 ++ [.readText t])

/-- DashboardPage.navigate_to_use_cases: click the use-cases card (re-resolves
the locator; the stored handles are not consulted). -/
def DashboardPage.navigate_to_use_cases (cfg : Config) (scen : Scenario H)
    (_p : DashboardPageState H) : Except PyError Unit × List (Ev H) :=
  BasePage.click_element cfg scen DashboardPage.USE_CASES_CARD none

/-- DashboardPage.navigate_to_playground: click the playground card. -/
def DashboardPage.navigate_to_playground (cfg : Config) (scen : Scenario H)
    (_p : DashboardPageState H) : Except PyError Unit × List (Ev H) :=
  BasePage.click_element cfg scen DashboardPage.PLAYGROUND_CARD none

/-- DashboardPage.navigate_to_reports: click the reports card. -/
def DashboardPage.navigate_to_reports (cfg : Config) (scen : Scenario H)
    (_p : DashboardPageState H) : Except PyError Unit × List (Ev H) :=
  BasePage.click_element cfg scen DashboardPage.REPORTS_CARD none

/-- DashboardPage.get_profile_title: read the card-title text (re-resolves the
locator; the stored title string is not consulted). -/
def DashboardPage.get_profile_title (cfg : Config) (scen : Scenario H)
    (_p : DashboardPageState H) : Except PyError String × List (Ev H) :=
  BasePage.get_text cfg scen DashboardPage.CARD_TITLE none

/-- The handle a driver event acts on, if it is an action on a handle (as
opposed to a wait resolution or a log record). -/
def Ev.actsOn : Ev H → Option H
  | .resolved _ _ _ => none
  | .logTimeout _ _ => none
  | .clicked el => some el
  | .jsClicked el => some el
  | .cleared el => some el
  | .sentKeys el _ => some el
  | .readText el => some el
  | .movedTo el => some el
  | .scrolledTo el => some el
  | .gotAttribute el _ => some el

/-- Every handle acted on in the trace was resolved, in the same trace, by a
wait of the given predicate kind on the given locator. -/
def reresolves (out : Except PyError β × List (Ev H)) (kind : PredicateKind)
    (loc : Locator) : Prop :=
  ∀ el : H, (∃ ev ∈ out.2, ev.actsOn = some el) →
    Ev.resolved kind loc el ∈ out.2

/-- A scenario in which no locator ever resolves to any element. -/
def emptyScenario : Scenario Nat where
  dom := fun _ => ⟨fun _ => [], fun _ => false, fun _ => false⟩
  text := fun _ => ""
  attr := fun _ _ => none
  child := fun _ _ => none
  clickRes := fun _ => .ok ()
  jsClickRes := fun _ => .ok ()
  clearRes := fun _ => .ok ()
  sendKeysRes := fun _ => .ok ()

/-- If the bounded wait succeeds, the check held at some tick inside the
polled window. -/
theorem waitUntilAux_ok {α : Type} (check : Nat → Option α) (start n : Nat) (v : α)
    (h : waitUntilAux check start n = .ok v) :
    ∃ t, start ≤ t ∧ t < start + n ∧ check t = some v := by
  induction n generalizing start with
  | zero => simp [waitUntilAux] at h
  | succ n ih =>
    rw [waitUntilAux] at h
    cases hc : check start with
    | some w =>
      rw [hc] at h
      refine ⟨start, le_rfl, by omega, ?_⟩
      rw [hc]
      simpa using h
    | none =>
      rw [hc] at h
      obtain ⟨t, h1, h2, h3⟩ := ih (start + 1) h
      exact ⟨t, by omega, by omega, h3⟩

/-- If the check fails at every tick of the polled window, the bounded wait
times out. -/
theorem waitUntilAux_none {α : Type} (check : Nat → Option α) (n : Nat) : ∀ start : Nat,
    (∀ t, start ≤ t → t < start + n → check t = none) →
    waitUntilAux check start n = .error .timeoutException := by
  induction n with
  | zero => intro start _; rfl
  | succ n ih =>
    intro start h
    rw [waitUntilAux, h start le_rfl (by omega)]
    exact ih (start + 1) (fun t h1 h2 => h t (by omega) (by omega))

/-- An action that is stale on its first two invocations and succeeds on the
third. -/
def staleTwiceThenOk : Nat → Except PyError Nat :=
  fun i => if i < 2 then .error .staleElementReference else .ok 42

/-- An action that is stale on every invocation. -/
def staleAlways : Nat → Except PyError Nat :=
  fun _ => .error .staleElementReference

/-- C1: retry_on_stale with max_attempts = 3: an action that raises staleness
on invocations 1 and 2 and succeeds on invocation 3 yields the action's result
after exactly 3 invocations; an action that raises staleness on all three
invocations propagates the staleness error after exactly 3 invocations. -/
theorem retry_on_stale_three_attempts {α : Type} (f : Nat → Except PyError α) :
    (∀ v : α, f 0 = .error .staleElementReference →
      f 1 = .error .staleElementReference → f 2 = .ok v →
      BasePage.retry_on_stale f 3 = (.ok (some v), 3)) ∧
    (f 0 = .error .staleElementReference → f 1 = .error .staleElementReference →
      f 2 = .error .staleElementReference →
      BasePage.retry_on_stale f 3 = (.error .staleElementReference, 3)) := by
  constructor
  · intro v h0 h1 h2
    unfold BasePage.retry_on_stale
    rw [BasePage.retryAux, dif_pos (by omega), h0]
    norm_num
    rw [BasePage.retryAux, dif_pos (by omega), h1]
    norm_num
    rw [BasePage.retryAux, dif_pos (by omega), h2]
  · intro h0 h1 h2
    unfold BasePage.retry_on_stale
    rw [BasePage.retryAux, dif_pos (by omega), h0]
    norm_num
    rw [BasePage.retryAux, dif_pos (by omega), h1]
    norm_num
    rw [BasePage.retryAux, dif_pos (by omega), h2]
    norm_num

/-- Witness for C1 at two concrete actions. -/
theorem retry_on_stale_three_attempts_witness :
    BasePage.retry_on_stale staleTwiceThenOk 3 = (.ok (some 42), 3) ∧
    BasePage.retry_on_stale staleAlways 3 = (.error .staleElementReference, 3) :=
  ⟨(retry_on_stale_three_attempts staleTwiceThenOk).1 42 rfl rfl rfl,
   (retry_on_stale_three_attempts staleAlways).2 rfl rfl rfl⟩

/-- C2: for every max_attempts at least 1, an action whose first invocation
raises a non-staleness error is invoked exactly once and the error propagates
immediately. -/
theorem retry_on_stale_non_stale_propagates {α : Type} (f : Nat → Except PyError α)
    (max_attempts : Int) (e : PyError) (hmax : 1 ≤ max_attempts)
    (he : e ≠ .staleElementReference) (hf : f 0 = .error e) :
    BasePage.retry_on_stale f max_attempts = (.error e, 1) := by
  unfold BasePage.retry_on_stale
  rw [BasePage.retryAux, dif_pos (by omega), hf]
  simp [he]

/-- Witness for C2 at a concrete action and max_attempts = 3. -/
theorem retry_on_stale_non_stale_propagates_witness :
    BasePage.retry_on_stale (fun _ => (.error (.otherError "boom") : Except PyError Nat)) 3 =
      (.error (.otherError "boom"), 1) :=
  retry_on_stale_non_stale_propagates _ 3 (.otherError "boom") (by norm_num)
    (by simp) rfl

/-- C10: with max_attempts at most 0, the while loop is never entered, so the
action is never invoked and the call returns None without raising. -/
theorem retry_on_stale_nonpositive {α : Type} (f : Nat → Except PyError α)
    (max_attempts : Int) (h : max_attempts ≤ 0) :
    BasePage.retry_on_stale f max_attempts = (.ok none, 0) := by
  unfold BasePage.retry_on_stale
  rw [BasePage.retryAux, dif_neg (by omega)]

/-- Witness for C10 at a concrete action and max_attempts = 0. -/
theorem retry_on_stale_nonpositive_witness :
    BasePage.retry_on_stale (fun _ => (.ok 7 : Except PyError Nat)) 0 = (.ok none, 0) :=
  retry_on_stale_nonpositive _ 0 (by norm_num)

/-- Case analysis of find_element: success with its resolution event, timeout
with its log record, or a foreign error passed through. -/
theorem find_element_cases (cfg : Config) (scen : Scenario H) (loc : Locator)
    (timeout : Option Int) :
    (∃ el, BasePage.find_element cfg scen loc timeout =
        (.ok el, [.resolved .presence loc el])) ∨
    BasePage.find_element cfg scen loc timeout =
        (.error .timeoutException, [.logTimeout .presence loc]) ∨
    ∃ e, BasePage.find_element cfg scen loc timeout = (.error e, []) := by
  unfold BasePage.find_element
  split
  · next el _ => exact Or.inl ⟨el, rfl⟩
  · next e _ =>
    split
    · next he => subst he; exact Or.inr (Or.inl rfl)
    · next he => exact Or.inr (Or.inr ⟨e, rfl⟩)

/-- Case analysis of find_visible_element. -/
theorem find_visible_element_cases (cfg : Config) (scen : Scenario H) (loc : Locator)
    (timeout : Option Int) :
    (∃ el, BasePage.find_visible_element cfg scen loc timeout =
        (.ok el, [.resolved .visibility loc el])) ∨
    BasePage.find_visible_element cfg scen loc timeout =
        (.error .timeoutException, [.logTimeout .visibility loc]) ∨
    ∃ e, BasePage.find_visible_element cfg scen loc timeout = (.error e, []) := by
  unfold BasePage.find_visible_element
  split
  · next el _ => exact Or.inl ⟨el, rfl⟩
  · next e _ =>
    split
    · next he => subst he; exact Or.inr (Or.inl rfl)
    · next he => exact Or.inr (Or.inr ⟨e, rfl⟩)

/-- Case analysis of find_clickable_element. -/
theorem find_clickable_element_cases (cfg : Config) (scen : Scenario H) (loc : Locator)
    (timeout : Option Int) :
    (∃ el, BasePage.find_clickable_element cfg scen loc timeout =
        (.ok el, [.resolved .clickability loc el])) ∨
    BasePage.find_clickable_element cfg scen loc timeout =
        (.error .timeoutException, [.logTimeout .clickability loc]) ∨
    ∃ e, BasePage.find_clickable_element cfg scen loc timeout = (.error e, []) := by
  unfold BasePage.find_clickable_element
  split
  · next el _ => exact Or.inl ⟨el, rfl⟩
  · next e _ =>
    split
    · next he => subst he; exact Or.inr (Or.inl rfl)
    · next he => exact Or.inr (Or.inr ⟨e, rfl⟩)

/-- A successful find_clickable_element call returns exactly the resolved
handle with its resolution event. -/
theorem find_clickable_element_ok_trace (cfg : Config) (scen : Scenario H)
    (loc : Locator) (timeout : Option Int) (el : H)
    (h : (BasePage.find_clickable_element cfg scen loc timeout).1 = .ok el) :
    BasePage.find_clickable_element cfg scen loc timeout =
      (.ok el, [.resolved .clickability loc el]) := by
  rcases find_clickable_element_cases cfg scen loc timeout with ⟨el', heq⟩ | heq | ⟨e, heq⟩
  · rw [heq] at h ⊢
    simp only [Except.ok.injEq] at h
    subst h
    rfl
  · rw [heq] at h
    simp at h
  · rw [heq] at h
    simp at h

/-- C4: a locator resolving to zero elements throughout the polled window
makes find_elements return the empty list (logging, not raising), while the
three single-element variants raise the timeout error. -/
theorem find_elements_empty_when_no_elements (cfg : Config) (scen : Scenario H)
    (loc : Locator) (timeout : Option Int)
    (h : ∀ t, t < pollsOf (BasePage.effectiveTimeout cfg timeout) →
      (scen.dom t).elems loc = []) :
    BasePage.find_elements cfg scen loc timeout =
      (.ok [], [.logTimeout .presenceAll loc]) ∧
    (BasePage.find_element cfg scen loc timeout).1 = .error .timeoutException ∧
    (BasePage.find_visible_element cfg scen loc timeout).1 = .error .timeoutException ∧
    (BasePage.find_clickable_element cfg scen loc timeout).1 = .error .timeoutException := by
  have hall : waitUntil (fun tick => allPresentCheck (scen.dom tick) loc)
      (pollsOf (BasePage.effectiveTimeout cfg timeout)) = .error .timeoutException := by
    unfold waitUntil
    apply waitUntilAux_none
    intro t _ h2
    simp [allPresentCheck, h t (by omega)]
  have hpres : waitUntil (fun tick => presenceCheck (scen.dom tick) loc)
      (pollsOf (BasePage.effectiveTimeout cfg timeout)) = .error .timeoutException := by
    unfold waitUntil
    apply waitUntilAux_none
    intro t _ h2
    simp [presenceCheck, h t (by omega)]
  have hvis : waitUntil (fun tick => visibilityCheck (scen.dom tick) loc)
      (pollsOf (BasePage.effectiveTimeout cfg timeout)) = .error .timeoutException := by
    unfold waitUntil
    apply waitUntilAux_none
    intro t _ h2
    simp [visibilityCheck, h t (by omega)]
  have hclk : waitUntil (fun tick => clickableCheck (scen.dom tick) loc)
      (pollsOf (BasePage.effectiveTimeout cfg timeout)) = .error .timeoutException := by
    unfold waitUntil
    apply waitUntilAux_none
    intro t _ h2
    simp [clickableCheck, visibilityCheck, h t (by omega)]
  refine ⟨?_, ?_, ?_, ?_⟩
  · simp [BasePage.find_elements, hall]
  · simp [BasePage.find_element, hpres]
  · simp [BasePage.find_visible_element, hvis]
  · simp [BasePage.find_clickable_element, hclk]

/-- Witness for C4: in the empty scenario, find_elements returns the empty
list while the single-element finders raise. -/
theorem find_elements_empty_when_no_elements_witness :
    BasePage.find_elements (Config.ofEnv none) emptyScenario LoginPage.EMAIL_INPUT none =
      (.ok [], [.logTimeout .presenceAll LoginPage.EMAIL_INPUT]) ∧
    (BasePage.find_element (Config.ofEnv none) emptyScenario LoginPage.EMAIL_INPUT none).1 =
      .error .timeoutException ∧
    (BasePage.find_visible_element (Config.ofEnv none) emptyScenario
      LoginPage.EMAIL_INPUT none).1 = .error .timeoutException ∧
    (BasePage.find_clickable_element (Config.ofEnv none) emptyScenario
      LoginPage.EMAIL_INPUT none).1 = .error .timeoutException :=
  find_elements_empty_when_no_elements (Config.ofEnv none) emptyScenario
    LoginPage.EMAIL_INPUT none (fun _ _ => rfl)

/-- C5 counterexample: two different single-element waits, on different
locators and different predicate kinds, time out with literally the same error
value, so the raised timeout error does not itself carry the locator or the
predicate kind (Selenium's TimeoutException is raised without a message and is
re-raised unchanged; only the log record carries that context). -/
theorem timeout_error_identical_across_predicates :
    (BasePage.find_element (Config.ofEnv none) emptyScenario
        LoginPage.EMAIL_INPUT none).1 =
      (BasePage.find_visible_element (Config.ofEnv none) emptyScenario
        LoginPage.PASSWORD_INPUT none).1 ∧
    LoginPage.EMAIL_INPUT ≠ LoginPage.PASSWORD_INPUT := by
  refine ⟨rfl, ?_⟩
  decide

/-- C5 amended: every single-element wait-bound operation whose predicate
never holds within the timeout raises the typed timeout error and surfaces it
to the caller unchanged (never swallowed), after writing a log record that
carries the locator and the predicate kind. -/
theorem single_element_timeout_surfaced (cfg : Config) (scen : Scenario H)
    (loc : Locator) (timeout : Option Int) :
    ((∀ t, t < pollsOf (BasePage.effectiveTimeout cfg timeout) →
        presenceCheck (scen.dom t) loc = none) →
      BasePage.find_element cfg scen loc timeout =
        (.error .timeoutException, [.logTimeout .presence loc])) ∧
    ((∀ t, t < pollsOf (BasePage.effectiveTimeout cfg timeout) →
        visibilityCheck (scen.dom t) loc = none) →
      BasePage.find_visible_element cfg scen loc timeout =
        (.error .timeoutException, [.logTimeout .visibility loc])) ∧
    ((∀ t, t < pollsOf (BasePage.effectiveTimeout cfg timeout) →
        clickableCheck (scen.dom t) loc = none) →
      BasePage.find_clickable_element cfg scen loc timeout =
        (.error .timeoutException, [.logTimeout .clickability loc])) := by
  refine ⟨?_, ?_, ?_⟩
  · intro h
    have hw : waitUntil (fun tick => presenceCheck (scen.dom tick) loc)
        (pollsOf (BasePage.effectiveTimeout cfg timeout)) = .error .timeoutException := by
      unfold waitUntil
      apply waitUntilAux_none
      intro t _ h2
      exact h t (by omega)
    simp [BasePage.find_element, hw]
  · intro h
    have hw : waitUntil (fun tick => visibilityCheck (scen.dom tick) loc)
        (pollsOf (BasePage.effectiveTimeout cfg timeout)) = .error .timeoutException := by
      unfold waitUntil
      apply waitUntilAux_none
      intro t _ h2
      exact h t (by omega)
    simp [BasePage.find_visible_element, hw]
  · intro h
    have hw : waitUntil (fun tick => clickableCheck (scen.dom tick) loc)
        (pollsOf (BasePage.effectiveTimeout cfg timeout)) = .error .timeoutException := by
      unfold waitUntil
      apply waitUntilAux_none
      intro t _ h2
      exact h t (by omega)
    simp [BasePage.find_clickable_element, hw]

/-- Witness for the amended C5 in the empty scenario. -/
theorem single_element_timeout_surfaced_witness :
    BasePage.find_element (Config.ofEnv none) emptyScenario LoginPage.ERROR_MESSAGE none =
      (.error .timeoutException, [.logTimeout .presence LoginPage.ERROR_MESSAGE]) ∧
    BasePage.find_visible_element (Config.ofEnv none) emptyScenario
        LoginPage.ERROR_MESSAGE none =
      (.error .timeoutException, [.logTimeout .visibility LoginPage.ERROR_MESSAGE]) ∧
    BasePage.find_clickable_element (Config.ofEnv none) emptyScenario
        LoginPage.ERROR_MESSAGE none =
      (.error .timeoutException, [.logTimeout .clickability LoginPage.ERROR_MESSAGE]) :=
  ⟨(single_element_timeout_surfaced (Config.ofEnv none) emptyScenario
      LoginPage.ERROR_MESSAGE none).1 (fun _ _ => rfl),
   (single_element_timeout_surfaced (Config.ofEnv none) emptyScenario
      LoginPage.ERROR_MESSAGE none).2.1 (fun _ _ => rfl),
   (single_element_timeout_surfaced (Config.ofEnv none) emptyScenario
      LoginPage.ERROR_MESSAGE none).2.2 (fun _ _ => rfl)⟩

/-- C3: click_element first waits for clickability (a wait failure propagates
and no click is attempted); on a resolved handle, a successful primitive click
ends the call with no fallback, while a primitive click raising any error
triggers exactly one JavaScript click on the same resolved handle, the call
succeeding when the fallback succeeds and propagating the fallback's error
otherwise. -/
theorem click_element_fallback (cfg : Config) (scen : Scenario H) (loc : Locator)
    (timeout : Option Int) :
    (∀ e evs, BasePage.find_clickable_element cfg scen loc timeout = (.error e, evs) →
      BasePage.click_element cfg scen loc timeout = (.error e, evs)) ∧
    (∀ el, (BasePage.find_clickable_element cfg scen loc timeout).1 = .ok el →
      ((scen.clickRes el = .ok () →
        BasePage.click_element cfg scen loc timeout =
          (.ok (), [.resolved .clickability loc el, .clicked el])) ∧
       (∀ e, scen.clickRes el = .error e →
        ((BasePage.click_element cfg scen loc timeout).2 =
            [.resolved .clickability loc el, .clicked el, .jsClicked el] ∧
         (scen.jsClickRes el = .ok () →
           BasePage.click_element cfg scen loc timeout =
             (.ok (), [.resolved .clickability loc el, .clicked el, .jsClicked el])) ∧
         (∀ e2, scen.jsClickRes el = .error e2 →
           (BasePage.click_element cfg scen loc timeout).1 = .error e2))))) := by
  constructor
  · intro e evs hf
    simp [BasePage.click_element, hf]
  · intro el hel
    have hfeq := find_clickable_element_ok_trace cfg scen loc timeout el hel
    constructor
    · intro hclick
      simp [BasePage.click_element, hfeq, hclick]
    · intro e he
      rcases hjs : scen.jsClickRes el with e2 | u
      · refine ⟨?_, ?_, ?_⟩
        · simp [BasePage.click_element, hfeq, he, hjs]
        · intro hok
          simp at hok
        · intro e3 hjse
          simp only [Except.error.injEq] at hjse
          subst hjse
          simp [BasePage.click_element, hfeq, he, hjs]
      · cases u
        refine ⟨?_, ?_, ?_⟩
        · simp [BasePage.click_element, hfeq, he, hjs]
        · intro _
          simp [BasePage.click_element, hfeq, he, hjs]
        · intro e3 hjse
          simp at hjse

/-- A scenario in which every locator resolves to handle 7, clickable, whose
primitive click is intercepted while the JavaScript click succeeds. -/
def clickFallbackScenario : Scenario Nat where
  dom := fun _ => ⟨fun _ => [7], fun _ => true, fun _ => true⟩
  text := fun _ => ""
  attr := fun _ _ => none
  child := fun _ _ => none
  clickRes := fun _ => .error (.otherError "click intercepted")
  jsClickRes := fun _ => .ok ()
  clearRes := fun _ => .ok ()
  sendKeysRes := fun _ => .ok ()

/-- Witness for C3: the intercepted primitive click falls back to exactly one
JavaScript click on the same handle and the call succeeds. -/
theorem click_element_fallback_witness :
    BasePage.click_element (Config.ofEnv none) clickFallbackScenario
        LoginPage.SUBMIT_BUTTON none =
      (.ok (), [.resolved .clickability LoginPage.SUBMIT_BUTTON 7, .clicked 7,
        .jsClicked 7]) :=
  (((click_element_fallback (Config.ofEnv none) clickFallbackScenario
      LoginPage.SUBMIT_BUTTON none).2 7 rfl).2 (.otherError "click intercepted")
      rfl).2.1 rfl

/-- A scenario in which every locator resolves to handle 5 from tick 30 on
(after 15 seconds) and to nothing before. -/
def lateScenario : Scenario Nat where
  dom := fun t => ⟨fun _ => if 30 ≤ t then [5] else [], fun _ => true, fun _ => true⟩
  text := fun _ => ""
  attr := fun _ _ => none
  child := fun _ _ => none
  clickRes := fun _ => .ok ()
  jsClickRes := fun _ => .ok ()
  clearRes := fun _ => .ok ()
  sendKeysRes := fun _ => .ok ()

/-- C6 counterexample: with the environment variable DEFAULT_TIMEOUT set to 20
and no per-call override, the presence wait succeeds on an element that only
appears after 15 seconds, whereas a wait bounded by the configured
ELEMENT_PRESENCE_TIMEOUT (10) would have timed out: the presence wait's
default timeout is Config.DEFAULT_TIMEOUT, not its per-predicate config
value. -/
theorem find_element_default_ignores_presence_timeout :
    (BasePage.find_element (Config.ofEnv (some 20)) lateScenario
        LoginPage.EMAIL_INPUT none).1 = .ok 5 ∧
    waitUntil (fun t => presenceCheck (lateScenario.dom t) LoginPage.EMAIL_INPUT)
        (pollsOf Config.ELEMENT_PRESENCE_TIMEOUT) = .error .timeoutException :=
  ⟨rfl, rfl⟩

/-- C6 amended: every wait operation's default timeout is the single
Config.DEFAULT_TIMEOUT value, identical across the presence / visibility /
clickability / find-all predicates; the caller may override it per call (any
non-zero override is used as given); and the wait's behaviour depends on the
configuration and override only through that effective timeout.  The poll
interval is the driver library's default 0.5 s, numerically equal to the
(unread) Config.POLL_FREQUENCY. -/
theorem wait_timeouts_driven_by_default (cfg cfg' : Config) (scen : Scenario H)
    (loc : Locator) (o o' : Option Int) :
    BasePage.effectiveTimeout cfg none = cfg.DEFAULT_TIMEOUT ∧
    (∀ t : Int, t ≠ 0 → BasePage.effectiveTimeout cfg (some t) = t) ∧
    (BasePage.effectiveTimeout cfg o = BasePage.effectiveTimeout cfg' o' →
      BasePage.find_element cfg scen loc o = BasePage.find_element cfg' scen loc o' ∧
      BasePage.find_visible_element cfg scen loc o =
        BasePage.find_visible_element cfg' scen loc o' ∧
      BasePage.find_clickable_element cfg scen loc o =
        BasePage.find_clickable_element cfg' scen loc o' ∧
      BasePage.find_elements cfg scen loc o = BasePage.find_elements cfg' scen loc o') := by
  refine ⟨rfl, ?_, ?_⟩
  · intro t ht
    simp [BasePage.effectiveTimeout, pyOr, ht]
  · intro h
    refine ⟨?_, ?_, ?_, ?_⟩ <;>
      simp only [BasePage.find_element, BasePage.find_visible_element,
        BasePage.find_clickable_element, BasePage.find_elements, h]

/-- Witness for the amended C6: an override is used as given, and a default
timeout of 7 from the environment behaves like a per-call override of 7. -/
theorem wait_timeouts_driven_by_default_witness :
    BasePage.effectiveTimeout (Config.ofEnv (some 7)) (some 5) = 5 ∧
    BasePage.find_element (Config.ofEnv (some 7)) emptyScenario
        LoginPage.EMAIL_INPUT none =
      BasePage.find_element (Config.ofEnv none) emptyScenario
        LoginPage.EMAIL_INPUT (some 7) :=
  ⟨(wait_timeouts_driven_by_default (Config.ofEnv (some 7)) (Config.ofEnv none)
      emptyScenario LoginPage.EMAIL_INPUT none (some 7)).2.1 5 (by norm_num),
   ((wait_timeouts_driven_by_default (Config.ofEnv (some 7)) (Config.ofEnv none)
      emptyScenario LoginPage.EMAIL_INPUT none (some 7)).2.2 (by decide)).1⟩

/-- C8 counterexample: a negative per-call override is truthy in Python, so it
is used as the effective timeout as-is, and it is not positive.  Positivity of
the effective timeout is not enforced by the code. -/
theorem negative_override_used_as_is :
    BasePage.effectiveTimeout (Config.ofEnv none) (some (-1)) = -1 ∧
    ¬ (0 < BasePage.effectiveTimeout (Config.ofEnv none) (some (-1))) :=
  ⟨rfl, by decide⟩

/-- C8 amended: provided the configured default timeout is positive, an
omitted override uses the (positive, finite) configured default, an override
of 0 falls back to that default, and any positive override is used as given —
so the effective timeout is positive for every nonnegative override; a
negative override, however, is used as-is. -/
theorem effective_timeout_positive (cfg : Config) (t : Int)
    (hpos : 0 < cfg.DEFAULT_TIMEOUT) :
    BasePage.effectiveTimeout cfg none = cfg.DEFAULT_TIMEOUT ∧
    0 < BasePage.effectiveTimeout cfg none ∧
    (0 ≤ t → 0 < BasePage.effectiveTimeout cfg (some t)) ∧
    (0 < t → BasePage.effectiveTimeout cfg (some t) = t) := by
  refine ⟨rfl, hpos, ?_, ?_⟩
  · intro ht
    by_cases h0 : t = 0
    · subst h0
      simpa [BasePage.effectiveTimeout, pyOr] using hpos
    · simp only [BasePage.effectiveTimeout, pyOr, if_neg h0]
      omega
  · intro ht
    have h0 : ¬ t = 0 := by omega
    simp [BasePage.effectiveTimeout, pyOr, h0]

/-- Witness for the amended C8 at the default config and override 5. -/
theorem effective_timeout_positive_witness :
    0 < BasePage.effectiveTimeout (Config.ofEnv none) none ∧
    BasePage.effectiveTimeout (Config.ofEnv none) (some 5) = 5 :=
  ⟨(effective_timeout_positive (Config.ofEnv none) 5 (by decide)).2.1,
   (effective_timeout_positive (Config.ofEnv none) 5 (by decide)).2.2.2 (by norm_num)⟩

/-- If a trace starts with a resolution event for `el` and every later event
acts on `el` or on nothing, then every acted-on handle in it was resolved in
it. -/
theorem reresolves_head {β : Type} (kind : PredicateKind) (loc : Locator) (el : H)
    (r : Except PyError β) (tail : List (Ev H))
    (htail : ∀ ev ∈ tail, ev.actsOn = some el ∨ ev.actsOn = none) :
    reresolves (r, Ev.resolved kind loc el :: tail) kind loc := by
  rintro x ⟨ev, hev, hact⟩
  simp only [List.mem_cons] at hev
  rcases hev with hev | hev
  · subst hev
    simp [Ev.actsOn] at hact
  · rcases htail ev hev with h1 | h1
    · rw [h1] at hact
      simp only [Option.some.injEq] at hact
      subst hact
      exact List.mem_cons_self _ _
    · rw [h1] at hact
      cases hact

/-- A trace with no acting events trivially satisfies the re-resolution
property. -/
theorem reresolves_no_actions {β : Type} (out : Except PyError β × List (Ev H))
    (kind : PredicateKind) (loc : Locator)
    (h : ∀ ev ∈ out.2, ev.actsOn = none) :
    reresolves out kind loc := by
  rintro x ⟨ev, hev, hact⟩
  rw [h ev hev] at hact
  cases hact

/-- C7: no element handle is cached and reused across operations.  Every
public interaction operation acts only on handles it re-resolved itself, from
its own locator, through the wait engine at the start of the call; and the
page-object methods are insensitive to the handles their constructors stored,
so a handle obtained in an earlier call is never reused by a later
interaction. -/
theorem no_handle_reuse (cfg : Config) (scen : Scenario H) (loc : Locator)
    (timeout : Option Int) (text attrName : String) (clear_first : Bool) :
    reresolves (BasePage.click_element cfg scen loc timeout) .clickability loc ∧
    reresolves (BasePage.input_text cfg scen loc text clear_first timeout)
      .visibility loc ∧
    reresolves (BasePage.get_text cfg scen loc timeout) .visibility loc ∧
    reresolves (BasePage.hover_over_element cfg scen loc timeout) .visibility loc ∧
    reresolves (BasePage.scroll_to_element cfg scen loc timeout) .presence loc ∧
    reresolves (BasePage.get_element_attribute cfg scen loc attrName timeout)
      .presence loc ∧
    (∀ p p' : LoginPageState H, ∀ s1 s2 s3 : String,
      LoginPage.set_email cfg scen p s1 = LoginPage.set_email cfg scen p' s1 ∧
      LoginPage.set_password cfg scen p s1 = LoginPage.set_password cfg scen p' s1 ∧
      LoginPage.check_validation cfg scen p s1 s2 s3 =
        LoginPage.check_validation cfg scen p' s1 s2 s3) ∧
    (∀ q q' : DashboardPageState H,
      DashboardPage.navigate_to_use_cases cfg scen q =
        DashboardPage.navigate_to_use_cases cfg scen q' ∧
      DashboardPage.navigate_to_playground cfg scen q =
        DashboardPage.navigate_to_playground cfg scen q' ∧
      DashboardPage.navigate_to_reports cfg scen q =
        DashboardPage.navigate_to_reports cfg scen q' ∧
      DashboardPage.get_profile_title cfg scen q =
        DashboardPage.get_profile_title cfg scen q') := by
  refine ⟨?_, ?_, ?_, ?_, ?_, ?_, ?_, ?_⟩
  · rcases find_clickable_element_cases cfg scen loc timeout with ⟨el, heq⟩ | heq | ⟨e, heq⟩
    · rcases hcr : scen.clickRes el with e1 | u
      · rcases hjs : scen.jsClickRes el with e2 | u
        · have hout : BasePage.click_element cfg scen loc timeout =
              (.error e2, [.resolved .clickability loc el, .clicked el, .jsClicked el]) := by
            simp [BasePage.click_element, heq, hcr, hjs]
          rw [hout]
          refine reresolves_head _ _ _ _ _ ?_
          intro ev hev
          simp only [List.mem_cons, List.not_mem_nil, or_false] at hev
          rcases hev with hev | hev <;> (subst hev; simp [Ev.actsOn])
        · have hout : BasePage.click_element cfg scen loc timeout =
              (.ok (), [.resolved .clickability loc el, .clicked el, .jsClicked el]) := by
            simp [BasePage.click_element, heq, hcr, hjs]
          rw [hout]
          refine reresolves_head _ _ _ _ _ ?_
          intro ev hev
          simp only [List.mem_cons, List.not_mem_nil, or_false] at hev
          rcases hev with hev | hev <;> (subst hev; simp [Ev.actsOn])
      · have hout : BasePage.click_element cfg scen loc timeout =
            (.ok (), [.resolved .clickability loc el, .clicked el]) := by
          simp [BasePage.click_element, heq, hcr]
        rw [hout]
        refine reresolves_head _ _ _ _ _ ?_
        intro ev hev
        simp only [List.mem_cons, List.not_mem_nil, or_false] at hev
        subst hev
        simp [Ev.actsOn]
    · have hout : BasePage.click_element cfg scen loc timeout =
          (.error .timeoutException, [.logTimeout .clickability loc]) := by
        simp [BasePage.click_element, heq]
      rw [hout]
      refine reresolves_no_actions _ _ _ ?_
      intro ev hev
      simp only [List.mem_cons, List.not_mem_nil, or_false] at hev
      subst hev
      simp [Ev.actsOn]
    · have hout : BasePage.click_element cfg scen loc timeout = (.error e, []) := by
        simp [BasePage.click_element, heq]
      rw [hout]
      refine reresolves_no_actions _ _ _ ?_
      intro ev hev
      simp at hev
  · rcases find_visible_element_cases cfg scen loc timeout with ⟨el, heq⟩ | heq | ⟨e, heq⟩
    · rcases hclear : scen.clearRes el with e1 | u
      · cases clear_first with
        | true =>
          have hout : BasePage.input_text cfg scen loc text true timeout =
              (.error e1, [.resolved .visibility loc el, .cleared el]) := by
            simp [BasePage.input_text, heq, hclear]
          rw [hout]
          refine reresolves_head _ _ _ _ _ ?_
          intro ev hev
          simp only [List.mem_cons, List.not_mem_nil, or_false] at hev
          subst hev
          simp [Ev.actsOn]
        | false =>
          rcases hsend : scen.sendKeysRes el with e2 | u
          · have hout : BasePage.input_text cfg scen loc text false timeout =
                (.error e2, [.resolved .visibility loc el, .sentKeys el text]) := by
              simp [BasePage.input_text, heq, hsend]
            rw [hout]
            refine reresolves_head _ _ _ _ _ ?_
            intro ev hev
            simp only [List.mem_cons, List.not_mem_nil, or_false] at hev
            subst hev
            simp [Ev.actsOn]
          · have hout : BasePage.input_text cfg scen loc text false timeout =
                (.ok (), [.resolved .visibility loc el, .sentKeys el text]) := by
              simp [BasePage.input_text, heq, hsend]
            rw [hout]
            refine reresolves_head _ _ _ _ _ ?_
            intro ev hev
            simp only [List.mem_cons, List.not_mem_nil, or_false] at hev
            subst hev
            simp [Ev.actsOn]
      · rcases hsend : scen.sendKeysRes el with e2 | u
        · cases clear_first with
          | true =>
            have hout : BasePage.input_text cfg scen loc text true timeout =
                (.error e2, [.resolved .visibility loc el, .cleared el, .sentKeys el text]) := by
              simp [BasePage.input_text, heq, hclear, hsend]
            rw [hout]
            refine reresolves_head _ _ _ _ _ ?_
            intro ev hev
            simp only [List.mem_cons, List.not_mem_nil, or_false] at hev
            rcases hev with hev | hev <;> (subst hev; simp [Ev.actsOn])
          | false =>
            have hout : BasePage.input_text cfg scen loc text false timeout =
                (.error e2, [.resolved .visibility loc el, .sentKeys el text]) := by
              simp [BasePage.input_text, heq, hsend]
            rw [hout]
            refine reresolves_head _ _ _ _ _ ?_
            intro ev hev
            simp only [List.mem_cons, List.not_mem_nil, or_false] at hev
            subst hev
            simp [Ev.actsOn]
        · cases clear_first with
          | true =>
            have hout : BasePage.input_text cfg scen loc text true timeout =
                (.ok (), [.resolved .visibility loc el, .cleared el, .sentKeys el text]) := by
              simp [BasePage.input_text, heq, hclear, hsend]
            rw [hout]
            refine reresolves_head _ _ _ _ _ ?_
            intro ev hev
            simp only [List.mem_cons, List.not_mem_nil, or_false] at hev
            rcases hev with hev | hev <;> (subst hev; simp [Ev.actsOn])
          | false =>
            have hout : BasePage.input_text cfg scen loc text false timeout =
                (.ok (), [.resolved .visibility loc el, .sentKeys el text]) := by
              simp [BasePage.input_text, heq, hsend]
            rw [hout]
            refine reresolves_head _ _ _ _ _ ?_
            intro ev hev
            simp only [List.mem_cons, List.not_mem_nil, or_false] at hev
            subst hev
            simp [Ev.actsOn]
    · have hout : BasePage.input_text cfg scen loc text clear_first timeout =
          (.error .timeoutException, [.logTimeout .visibility loc]) := by
        simp [BasePage.input_text, heq]
      rw [hout]
      refine reresolves_no_actions _ _ _ ?_
      intro ev hev
      simp only [List.mem_cons, List.not_mem_nil, or_false] at hev
      subst hev
      simp [Ev.actsOn]
    · have hout : BasePage.input_text cfg scen loc text clear_first timeout =
          (.error e, []) := by
        simp [BasePage.input_text, heq]
      rw [hout]
      refine reresolves_no_actions _ _ _ ?_
      intro ev hev
      simp at hev
  · rcases find_visible_element_cases cfg scen loc timeout with ⟨el, heq⟩ | heq | ⟨e, heq⟩
    · have hout : BasePage.get_text cfg scen loc timeout =
          (.ok (scen.text el), [.resolved .visibility loc el, .readText el]) := by
        simp [BasePage.get_text, heq]
      rw [hout]
      refine reresolves_head _ _ _ _ _ ?_
      intro ev hev
      simp only [List.mem_cons, List.not_mem_nil, or_false] at hev
      subst hev
      simp [Ev.actsOn]
    · have hout : BasePage.get_text cfg scen loc timeout =
          (.error .timeoutException, [.logTimeout .visibility loc]) := by
        simp [BasePage.get_text, heq]
      rw [hout]
      refine reresolves_no_actions _ _ _ ?_
      intro ev hev
      simp only [List.mem_cons, List.not_mem_nil, or_false] at hev
      subst hev
      simp [Ev.actsOn]
    · have hout : BasePage.get_text cfg scen loc timeout = (.error e, []) := by
        simp [BasePage.get_text, heq]
      rw [hout]
      refine reresolves_no_actions _ _ _ ?_
      intro ev hev
      simp at hev
  · rcases find_visible_element_cases cfg scen loc timeout with ⟨el, heq⟩ | heq | ⟨e, heq⟩
    · have hout : BasePage.hover_over_element cfg scen loc timeout =
          (.ok (), [.resolved .visibility loc el, .movedTo el]) := by
        simp [BasePage.hover_over_element, heq]
      rw [hout]
      refine reresolves_head _ _ _ _ _ ?_
      intro ev hev
      simp only [List.mem_cons, List.not_mem_nil, or_false] at hev
      subst hev
      simp [Ev.actsOn]
    · have hout : BasePage.hover_over_element cfg scen loc timeout =
          (.error .timeoutException, [.logTimeout .visibility loc]) := by
        simp [BasePage.hover_over_element, heq]
      rw [hout]
      refine reresolves_no_actions _ _ _ ?_
      intro ev hev
      simp only [List.mem_cons, List.not_mem_nil, or_false] at hev
      subst hev
      simp [Ev.actsOn]
    · have hout : BasePage.hover_over_element cfg scen loc timeout = (.error e, []) := by
        simp [BasePage.hover_over_element, heq]
      rw [hout]
      refine reresolves_no_actions _ _ _ ?_
      intro ev hev
      simp at hev
  · rcases find_element_cases cfg scen loc timeout with ⟨el, heq⟩ | heq | ⟨e, heq⟩
    · have hout : BasePage.scroll_to_element cfg scen loc timeout =
          (.ok (), [.resolved .presence loc el, .scrolledTo el]) := by
        simp [BasePage.scroll_to_element, heq]
      rw [hout]
      refine reresolves_head _ _ _ _ _ ?_
      intro ev hev
      simp only [List.mem_cons, List.not_mem_nil, or_false] at hev
      subst hev
      simp [Ev.actsOn]
    · have hout : BasePage.scroll_to_element cfg scen loc timeout =
          (.error .timeoutException, [.logTimeout .presence loc]) := by
        simp [BasePage.scroll_to_element, heq]
      rw [hout]
      refine reresolves_no_actions _ _ _ ?_
      intro ev hev
      simp only [List.mem_cons, List.not_mem_nil, or_false] at hev
      subst hev
      simp [Ev.actsOn]
    · have hout : BasePage.scroll_to_element cfg scen loc timeout = (.error e, []) := by
        simp [BasePage.scroll_to_element, heq]
      rw [hout]
      refine reresolves_no_actions _ _ _ ?_
      intro ev hev
      simp at hev
  · rcases find_element_cases cfg scen loc timeout with ⟨el, heq⟩ | heq | ⟨e, heq⟩
    · have hout : BasePage.get_element_attribute cfg scen loc attrName timeout =
          (.ok (scen.attr el attrName),
            [.resolved .presence loc el, .gotAttribute el attrName]) := by
        simp [BasePage.get_element_attribute, heq]
      rw [hout]
      refine reresolves_head _ _ _ _ _ ?_
      intro ev hev
      simp only [List.mem_cons, List.not_mem_nil, or_false] at hev
      subst hev
      simp [Ev.actsOn]
    · have hout : BasePage.get_element_attribute cfg scen loc attrName timeout =
          (.error .timeoutException, [.logTimeout .presence loc]) := by
        simp [BasePage.get_element_attribute, heq]
      rw [hout]
      refine reresolves_no_actions _ _ _ ?_
      intro ev hev
      simp only [List.mem_cons, List.not_mem_nil, or_false] at hev
      subst hev
      simp [Ev.actsOn]
    · have hout : BasePage.get_element_attribute cfg scen loc attrName timeout =
          (.error e, []) := by
        simp [BasePage.get_element_attribute, heq]
      rw [hout]
      refine reresolves_no_actions _ _ _ ?_
      intro ev hev
      simp at hev
  · intro p p' s1 s2 s3
    exact ⟨rfl, rfl, rfl⟩
  · intro q q'
    exact ⟨rfl, rfl, rfl, rfl⟩

/-- Witness for C7: a concrete click re-resolves its own locator for every
handle it acts on. -/
theorem no_handle_reuse_witness :
    reresolves (BasePage.click_element (Config.ofEnv none) clickFallbackScenario
      LoginPage.SUBMIT_BUTTON none) .clickability LoginPage.SUBMIT_BUTTON :=
  (no_handle_reuse (Config.ofEnv none) clickFallbackScenario LoginPage.SUBMIT_BUTTON
    none "sample" "sample" true).1

/-- If find_email_validation_message returns a boolean, the validation element
became visible at some tick within the default-timeout window and the boolean
is the comparison of the expected text with that element's text. -/
theorem find_visible_element_ok_wait (cfg : Config) (scen : Scenario H)
    (loc : Locator) (timeout : Option Int) (el : H)
    (h : (BasePage.find_visible_element cfg scen loc timeout).1 = .ok el) :
    waitUntil (fun tick => visibilityCheck (scen.dom tick) loc)
      (pollsOf (BasePage.effectiveTimeout cfg timeout)) = .ok el := by
  unfold BasePage.find_visible_element at h
  cases hwx : waitUntil (fun tick => visibilityCheck (scen.dom tick) loc)
      (pollsOf (BasePage.effectiveTimeout cfg timeout)) with
  | ok v =>
    rw [hwx] at h
    exact h
  | error e =>
    rw [hwx] at h
    have h2 : (if e = PyError.timeoutException then
          ((Except.error e : Except PyError H), [Ev.logTimeout PredicateKind.visibility loc])
        else (Except.error e, [])).1 = Except.ok el := h
    split at h2 <;> simp at h2

theorem find_email_validation_message_ok (cfg : Config) (scen : Scenario H)
    (expected : String) (b : Bool)
    (h : (LoginPage.find_email_validation_message cfg scen expected).1 = .ok b) :
    ∃ el, (∃ t, t < pollsOf (BasePage.effectiveTimeout cfg none) ∧
      visibilityCheck (scen.dom t) (validationLocator expected) = some el) ∧
      b = (expected == scen.text el) := by
  unfold LoginPage.find_email_validation_message at h
  rcases hfv : BasePage.find_visible_element cfg scen (validationLocator expected) none
    with ⟨r5, evs5⟩
  rw [hfv] at h
  cases r5 with
  | error e => simp at h
  | ok el =>
    have hw := find_visible_element_ok_wait cfg scen (validationLocator expected) none el
      (by rw [hfv])
    obtain ⟨t, _, ht2, ht3⟩ := waitUntilAux_ok _ 0 _ el hw
    refine ⟨el, ⟨t, by omega, ht3⟩, ?_⟩
    exact (Except.ok.inj h).symm

/-- C9: the concrete call checkValidation with empty email, password
"password123" and expected message "Email is required" returns true only if an
element matching the validation locator became visible within the default
timeout and its text is exactly "Email is required". -/
theorem check_validation_exact_text (cfg : Config) (scen : Scenario H)
    (p : LoginPageState H)
    (h : (LoginPage.check_validation cfg scen p "" "password123" "Email is required").1 =
      .ok true) :
    ∃ el, (∃ t, t < pollsOf (BasePage.effectiveTimeout cfg none) ∧
      visibilityCheck (scen.dom t) (validationLocator "Email is required") = some el) ∧
      scen.text el = "Email is required" := by
  unfold LoginPage.check_validation at h
  rcases h1 : LoginPage.set_email cfg scen p "" with ⟨r1, evs1⟩
  rw [h1] at h
  cases r1 with
  | error e => simp at h
  | ok u =>
    rcases h2 : LoginPage.set_password cfg scen p "password123" with ⟨r2, evs2⟩
    rw [h2] at h
    cases r2 with
    | error e => simp at h
    | ok u2 =>
      rcases h3 : BasePage.click_element cfg scen LoginPage.SUBMIT_BUTTON none
        with ⟨r3, evs3⟩
      rw [h3] at h
      cases r3 with
      | error e => simp at h
      | ok u3 =>
        have hsub : strContains "Email is required" "Password" = false := by decide
        have hc : ¬ (strContains "Email is required" "Password" = true) := by
          rw [hsub]
          exact Bool.false_ne_true
        rcases h4 : LoginPage.find_email_validation_message cfg scen "Email is required"
          with ⟨r4, evs4⟩
        have h' : (if strContains "Email is required" "Password" = true then
              (match LoginPage.find_password_validation_message cfg scen
                  "Email is required" with
                | (r, evs) => (r, evs1 ++ evs2 ++ evs3 ++ evs))
            else
              (match LoginPage.find_email_validation_message cfg scen
                  "Email is required" with
                | (r, evs) => (r, evs1 ++ evs2 ++ evs3 ++ evs))).1 = Except.ok true := h
        rw [if_neg hc, h4] at h'
        obtain ⟨el, ⟨t, ht1, ht2⟩, hb⟩ :=
          find_email_validation_message_ok cfg scen "Email is required" true
            (by rw [h4]; exact h')
        have hbe : ("Email is required" == scen.text el) = true := hb.symm
        exact ⟨el, ⟨t, ht1, ht2⟩, (eq_of_beq hbe).symm⟩

/-- A scenario in which the login form fields and submit button are live and
an element with the exact text of the email-required validation message is
visible. -/
def validScenario : Scenario Nat where
  dom := fun _ =>
    ⟨fun loc =>
      if loc = LoginPage.EMAIL_INPUT then [1]
      else if loc = LoginPage.PASSWORD_INPUT then [2]
      else if loc = LoginPage.SUBMIT_BUTTON then [3]
      else if loc = validationLocator "Email is required" then [4]
      else [],
     fun _ => true, fun _ => true⟩
  text := fun el => if el = 4 then "Email is required" else ""
  attr := fun _ _ => none
  child := fun _ _ => none
  clickRes := fun _ => .ok ()
  jsClickRes := fun _ => .ok ()
  clearRes := fun _ => .ok ()
  sendKeysRes := fun _ => .ok ()

/-- Witness for C9 in a concrete scenario where the call returns true. -/
theorem check_validation_exact_text_witness :
    ∃ el, (∃ t, t < pollsOf (BasePage.effectiveTimeout (Config.ofEnv none) none) ∧
      visibilityCheck (validScenario.dom t)
        (validationLocator "Email is required") = some el) ∧
      validScenario.text el = "Email is required" :=
  check_validation_exact_text (Config.ofEnv none) validScenario ⟨1, 2, 3⟩ rfl
